import Mathlib

/-!
Shallow embedding of the ABS wheel-speed malfunction detection and calibration
subsystem (SpeedSensor_Swc.c, ABS_MalfunctionDetection.c, CalibrationManager.c,
DiagnosticService.c), together with theorems settling the specification claims.

Conventions of the embedding:
* `float32` values are modelled as `ℚ` (exact real-valued semantics of the
  arithmetic expressions in the source); unsigned integers as `ℕ`.
* Each C module guards every operation behind a `g_..._Initialized` flag; the
  embedding models the initialized component (the guard only rejects calls
  before `Init`, which no claim is about).
* Per-wheel global arrays are modelled by passing the affected wheel's state
  in and out of each function; `WheelPosition_t` is `Fin 4`.
-/

namespace ABSSpec

/-- Std_ReturnType value E_OK (0). -/
def E_OK : ℕ := 0

/-- Std_ReturnType value E_NOT_OK (1). -/
def E_NOT_OK : ℕ := 1

/-- SensorStatus_t from SpeedSensor_Types.h. -/
inductive SensorStatus
  | ok
  | shortCircuit
  | openCircuit
  | outOfRange
  | calibrationError
  | invalid
deriving DecidableEq, Repr

/-- MAX_WHEEL_SPEED_KMH = 300.0f. -/
def MAX_WHEEL_SPEED_KMH : ℚ := 300

/-- SPEED_SENSOR_SAMPLE_RATE_MS = 10U. -/
def SPEED_SENSOR_SAMPLE_RATE_MS : ℕ := 10

/-- ABS_DETECTION_CYCLE_MS = 20U (50 Hz detection cycle). -/
def ABS_DETECTION_CYCLE_MS : ℕ := 20

/-- SpeedSensorRawData_t: raw per-wheel sample from the hardware layer. -/
structure SpeedSensorRawData where
  pulseCount : ℕ
  timeInterval : ℕ
  status : SensorStatus
  dataValid : Bool
deriving DecidableEq, Repr

/-- SpeedData_t: calculated per-wheel speed sample. -/
structure SpeedData where
  wheelSpeed : ℚ
  wheelSpeedRaw : ℚ
  accelerationX : ℚ
  speedValid : Bool
  qualityFactor : ℕ
deriving DecidableEq, Repr

/-- SpeedSensorCalibration_t: per-wheel calibration coefficients. -/
structure SpeedSensorCalibration where
  correctionFactor : ℚ
  offsetValue : ℚ
  pulsesPerRevolution : ℕ
  wheelCircumference : ℚ
  calibrationValid : Bool
  calibrationTimestamp : ℕ
deriving DecidableEq, Repr

/-- The default calibration installed by SpeedSensor_Init (correction 1.0,
offset 0.0, 60 pulses per revolution, 2.1 m circumference, valid). -/
def defaultCalibration : SpeedSensorCalibration :=
  { correctionFactor := 1
    offsetValue := 0
    pulsesPerRevolution := 60
    wheelCircumference := 21/10
    calibrationValid := true
    calibrationTimestamp := 0 }

/-- SpeedSensor_CalculateSpeed: computes wheelSpeedRaw, wheelSpeed and
accelerationX of the wheel's SpeedData from the raw sample, the calibration
and the previous cycle's calibrated speed (the static lastSpeed array).
When the elapsed time or the pulses-per-revolution is zero all three values
are set to 0. -/
def SpeedSensor_CalculateSpeed (raw : SpeedSensorRawData)
    (cal : SpeedSensorCalibration) (lastSpeed : ℚ) (sd : SpeedData) : SpeedData :=
  if 0 < raw.timeInterval ∧ 0 < cal.pulsesPerRevolution then
    let timeInSeconds : ℚ := (raw.timeInterval : ℚ) / 1000
    let rpm : ℚ := ((raw.pulseCount : ℚ) / (cal.pulsesPerRevolution : ℚ)) / timeInSeconds * 60
    let rawSpeed : ℚ := rpm * cal.wheelCircumference * 60 / 1000
    let wheelSpeed : ℚ := rawSpeed * cal.correctionFactor + cal.offsetValue
    { sd with
      wheelSpeed := wheelSpeed
      wheelSpeedRaw := rawSpeed
      accelerationX := (wheelSpeed - lastSpeed) / ((SPEED_SENSOR_SAMPLE_RATE_MS : ℚ) / 1000) }
  else
    { sd with wheelSpeed := 0, wheelSpeedRaw := 0, accelerationX := 0 }

/-- SpeedSensor_ValidateSpeedData: sets speedValid and qualityFactor from the
computed SpeedData, the raw sample's hardware status and the calibration.
The four checks run in source order; `(q > 50) ? 50 : q` is `min q 50`. -/
def SpeedSensor_ValidateSpeedData (raw : SpeedSensorRawData)
    (cal : SpeedSensorCalibration) (sd : SpeedData) : SpeedData :=
  let speedValid1 : Bool := if sd.wheelSpeed < 0 ∨ MAX_WHEEL_SPEED_KMH < sd.wheelSpeed then false else true
  let quality1 : ℕ := if sd.wheelSpeed < 0 ∨ MAX_WHEEL_SPEED_KMH < sd.wheelSpeed then 0 else 100
  let speedValid2 : Bool := if raw.status ≠ SensorStatus.ok then false else speedValid1
  let quality2 : ℕ := if raw.status ≠ SensorStatus.ok then 0 else quality1
  let speedValid3 : Bool := if cal.calibrationValid ≠ true then false else speedValid2
  let quality3 : ℕ := if cal.calibrationValid ≠ true then min quality2 50 else quality2
  let quality4 : ℕ :=
    if 20 < sd.accelerationX ∨ sd.accelerationX < -20 then min quality3 30 else quality3
  { sd with speedValid := speedValid3, qualityFactor := quality4 }

/-- One Speed Processor cycle for a wheel: SpeedSensor_CalculateSpeed followed
by SpeedSensor_ValidateSpeedData, as performed by SpeedSensor_MainFunction. -/
def SpeedSensor_ProcessCycle (raw : SpeedSensorRawData)
    (cal : SpeedSensorCalibration) (lastSpeed : ℚ) (sd : SpeedData) : SpeedData :=
  SpeedSensor_ValidateSpeedData raw cal (SpeedSensor_CalculateSpeed raw cal lastSpeed sd)

/-- SpeedSensor_SetCalibration: stores the requested calibration (marking it
valid) only when the correction factor is strictly inside (0.5, 2.0), the
pulses-per-revolution is positive and the circumference is positive;
otherwise the live calibration is left unchanged and E_NOT_OK is returned.
(The diagnostics calibration-cycle counter incremented on success is not part
of the calibration record and is not modelled.) -/
def SpeedSensor_SetCalibration (cal : SpeedSensorCalibration)
    (live : SpeedSensorCalibration) : Bool × SpeedSensorCalibration :=
  if 1/2 < cal.correctionFactor ∧ cal.correctionFactor < 2 ∧
      0 < cal.pulsesPerRevolution ∧ 0 < cal.wheelCircumference then
    (true, { cal with calibrationValid := true })
  else
    (false, live)

/-- An all-zero SpeedData record (the state after SpeedSensor_Init's memset). -/
def zeroSpeedData : SpeedData :=
  { wheelSpeed := 0, wheelSpeedRaw := 0, accelerationX := 0
    speedValid := false, qualityFactor := 0 }

/-- ABS_MalfunctionType_t. -/
inductive ABS_MalfunctionType
  | none
  | speedSensorMiscalibration
  | speedSensorFailure
  | wheelSlipExcessive
  | speedDifferenceExcessive
  | accelerationImplausible
  | calibrationDrift
  | systemError
deriving DecidableEq, Repr

/-- ABS_MalfunctionSeverity_t. -/
inductive ABS_MalfunctionSeverity
  | none
  | low
  | medium
  | high
  | critical
deriving DecidableEq, Repr

/-- ABS_SystemState_t. -/
inductive ABS_SystemState
  | inactive
  | monitoring
  | intervention
  | malfunction
  | degraded
deriving DecidableEq, Repr

/-- ABS_DetectionParameters_t. -/
structure ABS_DetectionParameters where
  speedDifferenceThreshold : ℚ
  accelerationThreshold : ℚ
  calibrationDriftThreshold : ℚ
  debounceTimeMs : ℕ
  consecutiveErrorsThreshold : ℕ
  enableMiscalibrationDetection : Bool
  enableSpeedPlausibilityCheck : Bool
  enableAccelerationCheck : Bool
deriving DecidableEq, Repr

/-- ABS_InitDefaultParameters: threshold 30 km/h, 15 m/s², 10 % drift,
100 ms debounce, 5 consecutive errors, all checks enabled. -/
def ABS_InitDefaultParameters : ABS_DetectionParameters :=
  { speedDifferenceThreshold := 30
    accelerationThreshold := 15
    calibrationDriftThreshold := 10
    debounceTimeMs := 100
    consecutiveErrorsThreshold := 5
    enableMiscalibrationDetection := true
    enableSpeedPlausibilityCheck := true
    enableAccelerationCheck := true }

/-- ABS_VehicleData_t: per-cycle vehicle context consumed by the detector. -/
structure ABS_VehicleData where
  wheelSpeeds : Fin 4 → SpeedData
  vehicleReferenceSpeed : ℚ
  longitudinalAcceleration : ℚ
  lateralAcceleration : ℚ
  brakePedalPressed : Bool
  vehicleStabilityActive : Bool
  systemState : ABS_SystemState

/-- One adjacent compare-and-swap pass over the first `n+1` list elements,
mirroring the inner loop `for j in [0, n)` of ABS_CalculateMedianSpeed
(`if (validSpeeds[j] > validSpeeds[j+1]) swap`). -/
def bubblePassUpTo : ℕ → List ℚ → List ℚ
  | n + 1, a :: b :: rest =>
      if b < a then b :: bubblePassUpTo n (a :: rest)
      else a :: bubblePassUpTo n (b :: rest)
  | _, l => l

/-- The outer loop of the bubble sort in ABS_CalculateMedianSpeed: passes with
shrinking comparison counts k, k-1, ..., 1. -/
def bubbleSortPasses : ℕ → List ℚ → List ℚ
  | 0, l => l
  | k + 1, l => bubbleSortPasses k (bubblePassUpTo (k + 1) l)

/-- The complete bubble sort of ABS_CalculateMedianSpeed
(outer loop i from 0 to length-2, inner comparison bound length-i-1). -/
def bubbleSort (l : List ℚ) : List ℚ := bubbleSortPasses (l.length - 1) l

/-- The valid-speed collection loop of ABS_CalculateMedianSpeed, unrolled over
the four wheels in index order. -/
def validSpeedList (vd : ABS_VehicleData) : List ℚ :=
  (if (vd.wheelSpeeds 0).speedValid then [(vd.wheelSpeeds 0).wheelSpeed] else []) ++
  (if (vd.wheelSpeeds 1).speedValid then [(vd.wheelSpeeds 1).wheelSpeed] else []) ++
  (if (vd.wheelSpeeds 2).speedValid then [(vd.wheelSpeeds 2).wheelSpeed] else []) ++
  (if (vd.wheelSpeeds 3).speedValid then [(vd.wheelSpeeds 3).wheelSpeed] else [])

/-- The median computation of ABS_CalculateMedianSpeed on the collected
valid speeds: 0 below two entries, else bubble sort and take the middle
element (odd count) or the average of the two middle elements (even count). -/
def medianOfList (valid : List ℚ) : ℚ :=
  let n := valid.length
  if 2 ≤ n then
    let sorted := bubbleSort valid
    if n % 2 = 0 then (sorted.getD (n / 2 - 1) 0 + sorted.getD (n / 2) 0) / 2
    else sorted.getD (n / 2) 0
  else 0

/-- ABS_CalculateMedianSpeed: the reference speed for the detection cycle. -/
def ABS_CalculateMedianSpeed (vd : ABS_VehicleData) : ℚ :=
  medianOfList (validSpeedList vd)

/-- ABS_CheckSpeedPlausibility: returns (isPlausible, deviation). A valid
wheel is implausible iff its absolute deviation from the median reference
exceeds the speed-difference threshold; an invalid wheel is reported
implausible with deviation 0. -/
def ABS_CheckSpeedPlausibility (params : ABS_DetectionParameters)
    (vd : ABS_VehicleData) (w : Fin 4) : Bool × ℚ :=
  if (vd.wheelSpeeds w).speedValid then
    let wheelSpeed := (vd.wheelSpeeds w).wheelSpeed
    let referenceSpeed := ABS_CalculateMedianSpeed vd
    let deviation := |wheelSpeed - referenceSpeed|
    (if params.speedDifferenceThreshold < deviation then false else true, deviation)
  else
    (false, 0)

/-- ABS_MalfunctionStatus_t. -/
structure ABS_MalfunctionStatus where
  malfunctionType : ABS_MalfunctionType
  severity : ABS_MalfunctionSeverity
  affectedWheel : Fin 4
  isActive : Bool
  detectionTimestamp : ℕ
  occurrenceCount : ℕ
  deviationValue : ℚ
  confirmedMalfunction : Bool
deriving DecidableEq, Repr

/-- The per-wheel detector state: the MalfunctionRecord together with the
wheel's debounce and consecutive-error counters. -/
structure WheelDetectionState where
  status : ABS_MalfunctionStatus
  debounceCounter : ℕ
  consecutiveErrorCount : ℕ
deriving DecidableEq, Repr

/-- The per-wheel state after ABS_MalfunctionDetection_Init (all clear). -/
def initWheelDetectionState (w : Fin 4) : WheelDetectionState :=
  { status :=
      { malfunctionType := ABS_MalfunctionType.none
        severity := ABS_MalfunctionSeverity.none
        affectedWheel := w
        isActive := false
        detectionTimestamp := 0
        occurrenceCount := 0
        deviationValue := 0
        confirmedMalfunction := false }
    debounceCounter := 0
    consecutiveErrorCount := 0 }

/-- ABS_UpdateMalfunctionStatus: record a detected malfunction on the wheel. -/
def ABS_UpdateMalfunctionStatus (st : ABS_MalfunctionStatus)
    (t : ABS_MalfunctionType) (sev : ABS_MalfunctionSeverity) (dev : ℚ) :
    ABS_MalfunctionStatus :=
  { st with
    malfunctionType := t
    severity := sev
    isActive := true
    deviationValue := dev
    detectionTimestamp := 0
    occurrenceCount := st.occurrenceCount + 1 }

/-- The state-update tail of ABS_ProcessWheelMalfunctionDetection
(lines after the three checks): `detected` is the combined outcome of the
enabled checks for this cycle, `t`/`sev`/`dev` the classification produced
when one of them trips.  When no malfunction is detected the consecutive
error count is reset and, if the record is still active, the debounce
counter is reset; the isActive flag itself is not touched. -/
def ABS_ProcessWheelDetectionUpdate (detected : Bool) (t : ABS_MalfunctionType)
    (sev : ABS_MalfunctionSeverity) (dev : ℚ) (s : WheelDetectionState) :
    WheelDetectionState :=
  if detected then
    { s with
      status := ABS_UpdateMalfunctionStatus s.status t sev dev
      consecutiveErrorCount := s.consecutiveErrorCount + 1 }
  else
    let s1 := { s with consecutiveErrorCount := 0 }
    if s1.status.isActive then { s1 with debounceCounter := 0 } else s1

/-- ABS_ProcessDebouncing: while the record is active, accumulate the 20 ms
cycle time into the debounce counter and confirm once it reaches the
configured debounce time; while inactive, reset the counter and clear the
confirmed flag. -/
def ABS_ProcessDebouncing (params : ABS_DetectionParameters)
    (s : WheelDetectionState) : WheelDetectionState :=
  if s.status.isActive then
    let d := s.debounceCounter + ABS_DETECTION_CYCLE_MS
    if params.debounceTimeMs ≤ d then
      { s with
        debounceCounter := d
        status := { s.status with confirmedMalfunction := true } }
    else
      { s with debounceCounter := d }
  else
    { s with
      debounceCounter := 0
      status := { s.status with confirmedMalfunction := false } }

/-- One detection cycle for a wheel as performed by
ABS_MalfunctionDetection_MainFunction: the detection update followed by the
debouncing step. -/
def ABS_WheelCycle (params : ABS_DetectionParameters) (detected : Bool)
    (t : ABS_MalfunctionType) (sev : ABS_MalfunctionSeverity) (dev : ℚ)
    (s : WheelDetectionState) : WheelDetectionState :=
  ABS_ProcessDebouncing params (ABS_ProcessWheelDetectionUpdate detected t sev dev s)

/-- A sequence of detection cycles for one wheel, driven by the per-cycle
detection outcomes (fault classification fixed across the run). -/
def ABS_RunCycles (params : ABS_DetectionParameters) (t : ABS_MalfunctionType)
    (sev : ABS_MalfunctionSeverity) (dev : ℚ) :
    List Bool → WheelDetectionState → WheelDetectionState
  | [], s => s
  | detected :: rest, s =>
      ABS_RunCycles params t sev dev rest (ABS_WheelCycle params detected t sev dev s)

/-- ABS_ClearMalfunctionStatus: explicit clear of a wheel's record and
counters. -/
def ABS_ClearMalfunctionStatus (s : WheelDetectionState) : WheelDetectionState :=
  { s with
    status := { s.status with
      isActive := false
      confirmedMalfunction := false
      malfunctionType := ABS_MalfunctionType.none
      severity := ABS_MalfunctionSeverity.none }
    debounceCounter := 0
    consecutiveErrorCount := 0 }

/-- CalibrationResult_t. -/
inductive CalibrationResult
  | ok
  | notOk
  | invalidParam
  | outOfRange
  | nvmError
  | validationFailed
  | inProgress
deriving DecidableEq, Repr

/-- The Std_ReturnType value CALIBRATION_RESULT_IN_PROGRESS (6) that
CalibrationManager_StartCalibration returns for a busy session. -/
def CALIBRATION_RESULT_IN_PROGRESS_CODE : ℕ := 6

/-- CalibrationMethod_t. -/
inductive CalibrationMethod
  | manual
  | automatic
  | referenceBased
  | gpsBased
  | factoryReset
deriving DecidableEq, Repr

/-- CalibrationState_t. -/
inductive CalibrationState
  | idle
  | requested
  | inProgress
  | completed
  | failed
  | cancelled
deriving DecidableEq, Repr

/-- CalibrationRequest_t. -/
structure CalibrationRequest where
  wheelPosition : Fin 4
  method : CalibrationMethod
  referenceSpeed : ℚ
  tolerancePercentage : ℚ
  calibrationTimeMs : ℕ
  forceCalibration : Bool
deriving DecidableEq, Repr

/-- CalibrationSession_t. -/
structure CalibrationSession where
  request : CalibrationRequest
  state : CalibrationState
  result : CalibrationResult
  startTimestamp : ℕ
  endTimestamp : ℕ
  samplesCollected : ℕ
  calculatedCorrectionFactor : ℚ
  calculatedOffset : ℚ
  measuredAccuracy : ℚ
  sessionActive : Bool
deriving DecidableEq, Repr

/-- CalibrationConfig_t. -/
structure CalibrationConfig where
  maxCalibrationSamples : ℕ
  minCalibrationSamples : ℕ
  maxCorrectionFactor : ℚ
  minCorrectionFactor : ℚ
  defaultTolerance : ℚ
  calibrationTimeoutMs : ℕ
  enableAutoCalibration : Bool
  autoCalibrationIntervalHours : ℕ
deriving DecidableEq, Repr

/-- CalibrationManager_InitDefaultConfig: 1000/50 samples, correction band
[0.5, 1.5], 2 % tolerance, 30 s timeout, auto calibration on, daily. -/
def CalibrationManager_InitDefaultConfig : CalibrationConfig :=
  { maxCalibrationSamples := 1000
    minCalibrationSamples := 50
    maxCorrectionFactor := 3/2
    minCorrectionFactor := 1/2
    defaultTolerance := 2
    calibrationTimeoutMs := 30000
    enableAutoCalibration := true
    autoCalibrationIntervalHours := 24 }

/-- CalibrationSampleData_t: the two parallel sample arrays are modelled as a
single list of (speedSample, referenceSample) pairs, with the running count. -/
structure CalibrationSampleData where
  samples : List (ℚ × ℚ)
  sampleCount : ℕ
deriving DecidableEq, Repr

/-- The zeroed sample buffer written by the memset in
CalibrationManager_StartCalibration and CalibrationManager_Init. -/
def zeroSampleData : CalibrationSampleData := { samples := [], sampleCount := 0 }

/-- Unsigned 32-bit subtraction as used on the stubbed uint32 timestamps. -/
def uint32Sub (a b : ℕ) : ℕ := (a % 2 ^ 32 + 2 ^ 32 - b % 2 ^ 32) % 2 ^ 32

/-- CalibrationManager_StartCalibration for the wheel named in the request:
fails with the session-busy code CALIBRATION_RESULT_IN_PROGRESS when a
session is already active, otherwise installs the request, moves the session
to `requested`, marks it active and zeroes the sample buffer.  (The source
also rejects out-of-range wheel indices with CALIBRATION_RESULT_INVALID_PARAM;
`Fin 4` rules those out.)  The stubbed timestamp 0 is written verbatim. -/
def CalibrationManager_StartCalibration (req : CalibrationRequest)
    (s : CalibrationSession) (sd : CalibrationSampleData) :
    ℕ × CalibrationSession × CalibrationSampleData :=
  if s.sessionActive = false then
    (E_OK,
      { s with
        request := req
        state := CalibrationState.requested
        result := CalibrationResult.inProgress
        startTimestamp := 0
        samplesCollected := 0
        sessionActive := true },
      zeroSampleData)
  else
    (CALIBRATION_RESULT_IN_PROGRESS_CODE, s, sd)

/-- CalibrationManager_CollectSample: when the Speed Processor read succeeds
(`getOk`), the live SpeedSample is valid and the buffer is below capacity,
append the (liveSpeed, requestReferenceSpeed) pair; the Bool result is the
E_OK/E_NOT_OK return. -/
def CalibrationManager_CollectSample (config : CalibrationConfig) (getOk : Bool)
    (speedData : SpeedData) (s : CalibrationSession) (sd : CalibrationSampleData) :
    Bool × CalibrationSampleData :=
  if getOk = true ∧ speedData.speedValid = true ∧
      sd.sampleCount < config.maxCalibrationSamples then
    (true,
      { samples := sd.samples ++ [(speedData.wheelSpeed, s.request.referenceSpeed)]
        sampleCount := sd.sampleCount + 1 })
  else
    (false, sd)

/-- CalibrationManager_ValidateCalculatedCalibration: the computed correction
factor must lie in the configured band and the measured accuracy must reach
100 minus the requested tolerance. -/
def CalibrationManager_ValidateCalculatedCalibration (config : CalibrationConfig)
    (s : CalibrationSession) : Bool :=
  if config.minCorrectionFactor ≤ s.calculatedCorrectionFactor ∧
      s.calculatedCorrectionFactor ≤ config.maxCorrectionFactor then
    if 100 - s.request.tolerancePercentage ≤ s.measuredAccuracy then true else false
  else false

/-- The samples CalibrationManager_CalculateCalibration averages over: the
first sampleCount pairs whose speed and reference are both positive. -/
def usedSamples (sd : CalibrationSampleData) : List (ℚ × ℚ) :=
  (sd.samples.take sd.sampleCount).filter (fun p => decide (0 < p.1) && decide (0 < p.2))

/-- CalibrationManager_CalculateCalibration: with at least the minimum number
of positive sample pairs, store the ratio of mean reference to mean observed
speed as correction factor (offset 0) and the relative-error accuracy, then
validate; the Bool result is the E_OK/E_NOT_OK return (false both when too
few samples are usable and when validation rejects the computed values). -/
def CalibrationManager_CalculateCalibration (config : CalibrationConfig)
    (sd : CalibrationSampleData) (s : CalibrationSession) :
    Bool × CalibrationSession :=
  let used := usedSamples sd
  let validSamples := used.length
  if config.minCalibrationSamples ≤ validSamples then
    let avgSpeed := (used.map Prod.fst).sum / (validSamples : ℚ)
    let avgReference := (used.map Prod.snd).sum / (validSamples : ℚ)
    let s1 := { s with
      calculatedCorrectionFactor := avgReference / avgSpeed
      calculatedOffset := 0
      measuredAccuracy := 100 - |avgSpeed - avgReference| / avgReference * 100 }
    (CalibrationManager_ValidateCalculatedCalibration config s1, s1)
  else
    (false, s)

/-- CalibrationManager_ProcessCalibrationSession, one invocation for a wheel
with an active session.  `getOk` and `speedData` model the
SpeedSensor_GetSpeedData collaborator call inside CollectSample.  The stubbed
`currentTime = 0` of the source is kept verbatim (timestamps are uint32, so
elapsed times are computed with wrap-around subtraction). -/
def CalibrationManager_ProcessCalibrationSession (config : CalibrationConfig)
    (getOk : Bool) (speedData : SpeedData)
    (s : CalibrationSession) (sd : CalibrationSampleData) :
    CalibrationSession × CalibrationSampleData :=
  let currentTime : ℕ := 0
  match s.state with
  | CalibrationState.requested =>
      ({ s with state := CalibrationState.inProgress }, sd)
  | CalibrationState.inProgress =>
      let collected := CalibrationManager_CollectSample config getOk speedData s sd
      let afterCollect :=
        if collected.1 = true then
          let s1 := { s with samplesCollected := collected.2.sampleCount }
          if config.minCalibrationSamples ≤ s1.samplesCollected then
            if s.request.calibrationTimeMs ≤ uint32Sub currentTime s.startTimestamp then
              let calcRes := CalibrationManager_CalculateCalibration config collected.2 s1
              if calcRes.1 = true then
                { calcRes.2 with
                  state := CalibrationState.completed
                  result := CalibrationResult.ok }
              else
                { calcRes.2 with
                  state := CalibrationState.failed
                  result := CalibrationResult.validationFailed }
            else s1
          else s1
        else s
      let final :=
        if config.calibrationTimeoutMs ≤ uint32Sub currentTime s.startTimestamp then
          { afterCollect with
            state := CalibrationState.failed
            result := CalibrationResult.notOk }
        else afterCollect
      (final, collected.2)
  | CalibrationState.completed =>
      ({ s with sessionActive := false, endTimestamp := currentTime }, sd)
  | CalibrationState.failed =>
      ({ s with sessionActive := false, endTimestamp := currentTime }, sd)
  | CalibrationState.cancelled =>
      ({ s with sessionActive := false, endTimestamp := currentTime }, sd)
  | CalibrationState.idle => (s, sd)

/-- CalibrationManager_ApplyCalibration for a wheel: only a session in state
`completed` with result OK is applied.  The computed correction factor and
offset are written into the live SpeedSensor calibration via
SpeedSensor_SetCalibration; when `saveToNvm` is requested the return value is
that of CalibrationManager_SaveToNvm, whose NVM write outcome is modelled by
`nvmWriteOk`.  (The history entry appended on success carries no state used
by any claim and is not modelled.) -/
def CalibrationManager_ApplyCalibration (s : CalibrationSession)
    (live : SpeedSensorCalibration) (saveToNvm nvmWriteOk : Bool) :
    ℕ × SpeedSensorCalibration :=
  if s.state = CalibrationState.completed ∧ s.result = CalibrationResult.ok then
    let cal := { live with
      correctionFactor := s.calculatedCorrectionFactor
      offsetValue := s.calculatedOffset
      calibrationTimestamp := s.endTimestamp
      calibrationValid := true }
    let setRes := SpeedSensor_SetCalibration cal live
    if setRes.1 = true then
      if saveToNvm = true then
        (if nvmWriteOk = true then E_OK else E_NOT_OK, setRes.2)
      else
        (E_OK, setRes.2)
    else
      (E_NOT_OK, setRes.2)
  else
    (E_NOT_OK, live)

/-- UDS service and negative-response-code constants used by the handlers. -/
def UDS_SID_CLEAR_DIAGNOSTIC_INFORMATION : ℕ := 0x14

/-- Negative response service identifier byte 0x7F. -/
def UDS_NEGATIVE_RESPONSE_SID : ℕ := 0x7F

/-- UDS_NRC_REQUEST_OUT_OF_RANGE = 0x31. -/
def UDS_NRC_REQUEST_OUT_OF_RANGE : ℕ := 0x31

/-- UDS_NRC_INCORRECT_MESSAGE_LENGTH = 0x13. -/
def UDS_NRC_INCORRECT_MESSAGE_LENGTH : ℕ := 0x13

/-- DTCStatus_t: the eight named status bits. -/
structure DTCStatus where
  testFailed : Bool
  testFailedThisOperationCycle : Bool
  pendingDTC : Bool
  confirmedDTC : Bool
  testNotCompletedSinceLastClear : Bool
  testFailedSinceLastClear : Bool
  testNotCompletedThisOperationCycle : Bool
  warningIndicatorRequested : Bool
deriving DecidableEq, Repr

/-- The status byte written by a clear: memset to 0 followed by setting only
testNotCompletedSinceLastClear. -/
def clearedDTCStatus : DTCStatus :=
  { testFailed := false
    testFailedThisOperationCycle := false
    pendingDTC := false
    confirmedDTC := false
    testNotCompletedSinceLastClear := true
    testFailedSinceLastClear := false
    testNotCompletedThisOperationCycle := false
    warningIndicatorRequested := false }

/-- DTCInfo_t: one slot of the DTC table (dtcNumber 0 marks an empty slot). -/
structure DTCInfo where
  dtcNumber : ℕ
  status : DTCStatus
  severity : ℕ
  functionalUnit : ℕ
  affectedWheel : Fin 4
  occurrenceCount : ℕ
  firstFailureTimestamp : ℕ
  lastFailureTimestamp : ℕ
  malfunctionType : ABS_MalfunctionType
deriving DecidableEq, Repr

/-- Replace the element at an index of a list, leaving all others unchanged
(array element assignment of the C DTC table). -/
def listModify (f : DTCInfo → DTCInfo) : ℕ → List DTCInfo → List DTCInfo
  | _, [] => []
  | 0, e :: rest => f e :: rest
  | n + 1, e :: rest => e :: listModify f n rest

/-- DiagnosticService_FindDTC: index of the first table slot holding the
given DTC number. -/
def DiagnosticService_FindDTC (n : ℕ) : List DTCInfo → Option ℕ
  | [] => Option.none
  | e :: rest =>
      if e.dtcNumber = n then some 0
      else (DiagnosticService_FindDTC n rest).map (· + 1)

/-- DiagnosticService_ClearDTC: reset the status byte of the matching slot
(all bits cleared, then testNotCompletedSinceLastClear set); the Bool result
is the E_OK/E_NOT_OK return (false when no slot matches). -/
def DiagnosticService_ClearDTC (n : ℕ) (table : List DTCInfo) :
    Bool × List DTCInfo :=
  match DiagnosticService_FindDTC n table with
  | some i => (true, listModify (fun e => { e with status := clearedDTCStatus }) i table)
  | Option.none => (false, table)

/-- The body of the clear-all loop for one table slot: reset the status byte
of an allocated slot (dtcNumber ≠ 0), leave empty slots untouched. -/
def clearDTCSlot (e : DTCInfo) : DTCInfo :=
  if e.dtcNumber ≠ 0 then { e with status := clearedDTCStatus } else e

/-- DiagnosticService_ClearAllDTCs: reset the status byte of every allocated
slot; always E_OK on the initialized component. -/
def DiagnosticService_ClearAllDTCs (table : List DTCInfo) : List DTCInfo :=
  table.map clearDTCSlot

/-- DiagnosticService_UpdateDTCStatus: on an active report, set testFailed and
testFailedThisOperationCycle, bump the occurrence count and confirm the DTC
once the count has reached 3; on an inactive report clear testFailed. -/
def DiagnosticService_UpdateDTCStatus (n : ℕ) (active : Bool)
    (table : List DTCInfo) : Bool × List DTCInfo :=
  match DiagnosticService_FindDTC n table with
  | some i =>
      (true, listModify (fun e =>
        if active = true then
          let e1 := { e with
            status := { e.status with
              testFailed := true
              testFailedThisOperationCycle := true }
            occurrenceCount := e.occurrenceCount + 1
            lastFailureTimestamp := 0 }
          if 3 ≤ e1.occurrenceCount then
            { e1 with status := { e1.status with confirmedDTC := true } }
          else e1
        else
          { e with status := { e.status with testFailed := false } }) i table)
  | Option.none => (false, table)

/-- UDS_ClearDiagnosticInformation (service 0x14) on the diagnostic state,
which pairs the DTC table with the four wheels' detector state (the handler
calls ABS_ClearMalfunctionStatus on every wheel for a 0xFFFFFF group clear).
`requestData` are the request payload bytes; the result is the response
payload together with the updated table and wheel states. -/
def UDS_ClearDiagnosticInformation (requestData : List ℕ) (maxResponseLength : ℕ)
    (table : List DTCInfo) (wheels : Fin 4 → WheelDetectionState) :
    List ℕ × List DTCInfo × (Fin 4 → WheelDetectionState) :=
  if 3 ≤ requestData.length ∧ 1 ≤ maxResponseLength then
    let dtcGroupToDelete :=
      (requestData.getD 0 0) <<< 16 ||| (requestData.getD 1 0) <<< 8 ||| requestData.getD 2 0
    if dtcGroupToDelete = 0xFFFFFF then
      ([UDS_SID_CLEAR_DIAGNOSTIC_INFORMATION + 0x40],
        DiagnosticService_ClearAllDTCs table,
        fun w => ABS_ClearMalfunctionStatus (wheels w))
    else
      let cleared := DiagnosticService_ClearDTC dtcGroupToDelete table
      if cleared.1 = true then
        ([UDS_SID_CLEAR_DIAGNOSTIC_INFORMATION + 0x40], cleared.2, wheels)
      else
        ([UDS_NEGATIVE_RESPONSE_SID, UDS_SID_CLEAR_DIAGNOSTIC_INFORMATION,
          UDS_NRC_REQUEST_OUT_OF_RANGE], table, wheels)
  else
    ([UDS_NEGATIVE_RESPONSE_SID, UDS_SID_CLEAR_DIAGNOSTIC_INFORMATION,
      UDS_NRC_INCORRECT_MESSAGE_LENGTH], table, wheels)

/-! ## Correctness of the bubble sort used by ABS_CalculateMedianSpeed -/

theorem bubblePassUpTo_zero (l : List ℚ) : bubblePassUpTo 0 l = l := by
  cases l with
  | nil => rfl
  | cons a rest => cases rest <;> rfl

theorem bubblePassUpTo_perm (n : ℕ) : ∀ l : List ℚ, (bubblePassUpTo n l).Perm l := by
  induction n with
  | zero => intro l; rw [bubblePassUpTo_zero]
  | succ k ih =>
    intro l
    match l with
    | [] => simp [bubblePassUpTo]
    | [a] => simp [bubblePassUpTo]
    | a :: b :: rest =>
      simp only [bubblePassUpTo]
      split_ifs with hab
      · exact ((ih (a :: rest)).cons b).trans (List.Perm.swap a b rest)
      · exact (ih (b :: rest)).cons a

theorem bubblePassUpTo_append (n : ℕ) :
    ∀ (l₁ l₂ : List ℚ), n + 1 ≤ l₁.length →
      bubblePassUpTo n (l₁ ++ l₂) = bubblePassUpTo n l₁ ++ l₂ := by
  induction n with
  | zero => intro l₁ l₂ _; rw [bubblePassUpTo_zero, bubblePassUpTo_zero]
  | succ k ih =>
    intro l₁ l₂ h
    match l₁ with
    | [] => simp at h
    | [a] => simp only [List.length_cons, List.length_nil] at h; omega
    | a :: b :: rest =>
      have hlen : k + 1 ≤ (a :: rest).length := by
        simp only [List.length_cons] at h ⊢; omega
      have hlen2 : k + 1 ≤ (b :: rest).length := by
        simp only [List.length_cons] at h ⊢; omega
      simp only [List.cons_append, List.append_eq, bubblePassUpTo]
      split_ifs with hab
      · have hstep := ih (a :: rest) l₂ hlen
        simp only [List.cons_append, List.append_eq] at hstep
        rw [hstep, List.cons_append]
      · have hstep := ih (b :: rest) l₂ hlen2
        simp only [List.cons_append, List.append_eq] at hstep
        rw [hstep, List.cons_append]

theorem bubblePassUpTo_maxLast (n : ℕ) :
    ∀ l : List ℚ, l.length = n + 1 →
      ∃ l' m, bubblePassUpTo n l = l' ++ [m] ∧ l'.length = n ∧ ∀ x ∈ l, x ≤ m := by
  induction n with
  | zero =>
    intro l h
    rcases l with _ | ⟨a, _ | ⟨b, r⟩⟩
    · simp at h
    · exact ⟨[], a, by rw [bubblePassUpTo_zero]; rfl, rfl, by simp⟩
    · simp only [List.length_cons] at h; omega
  | succ k ih =>
    intro l h
    rcases l with _ | ⟨a, _ | ⟨b, rest⟩⟩
    · simp at h
    · simp only [List.length_cons, List.length_nil] at h; omega
    · simp only [bubblePassUpTo]
      split_ifs with hab
      · obtain ⟨l', m, heq, hlen, hmax⟩ := ih (a :: rest)
          (by simp only [List.length_cons] at h ⊢; omega)
        refine ⟨b :: l', m, by simp [heq], by simp [hlen], ?_⟩
        intro x hx
        simp only [List.mem_cons] at hx
        rcases hx with rfl | rfl | hx
        · exact hmax x (by simp)
        · exact le_trans (le_of_lt hab) (hmax a (by simp))
        · exact hmax x (by simp [hx])
      · obtain ⟨l', m, heq, hlen, hmax⟩ := ih (b :: rest)
          (by simp only [List.length_cons] at h ⊢; omega)
        refine ⟨a :: l', m, by simp [heq], by simp [hlen], ?_⟩
        intro x hx
        simp only [List.mem_cons] at hx
        rcases hx with rfl | rfl | hx
        · exact le_trans (le_of_not_lt hab) (hmax b (by simp))
        · exact hmax x (by simp)
        · exact hmax x (by simp [hx])

theorem bubbleSortPasses_perm (k : ℕ) : ∀ l : List ℚ, (bubbleSortPasses k l).Perm l := by
  induction k with
  | zero => intro l; simp [bubbleSortPasses]
  | succ k ih =>
    intro l
    exact (ih (bubblePassUpTo (k + 1) l)).trans (bubblePassUpTo_perm (k + 1) l)

theorem bubbleSortPasses_append (k : ℕ) :
    ∀ (l₁ l₂ : List ℚ), k + 1 ≤ l₁.length →
      bubbleSortPasses k (l₁ ++ l₂) = bubbleSortPasses k l₁ ++ l₂ := by
  induction k with
  | zero => intro l₁ l₂ _; simp [bubbleSortPasses]
  | succ k ih =>
    intro l₁ l₂ h
    simp only [bubbleSortPasses]
    rw [bubblePassUpTo_append (k + 1) l₁ l₂ (le_trans (by omega) h)]
    refine ih _ _ ?_
    rw [(bubblePassUpTo_perm (k + 1) l₁).length_eq]
    omega

theorem bubbleSortPasses_sorted (k : ℕ) :
    ∀ l : List ℚ, l.length = k + 1 → (bubbleSortPasses k l).Sorted (· ≤ ·) := by
  induction k with
  | zero =>
    intro l h
    rcases l with _ | ⟨a, _ | ⟨b, r⟩⟩
    · simp at h
    · simp [bubbleSortPasses]
    · simp only [List.length_cons] at h; omega
  | succ k ih =>
    intro l h
    simp only [bubbleSortPasses]
    obtain ⟨l', m, heq, hlen, hmax⟩ := bubblePassUpTo_maxLast (k + 1) l h
    rw [heq, bubbleSortPasses_append k l' [m] (by omega)]
    refine (List.pairwise_append).mpr ⟨ih l' hlen, List.sorted_singleton m, ?_⟩
    intro x hx y hy
    simp only [List.mem_singleton] at hy
    subst hy
    have hx1 : x ∈ l' := ((bubbleSortPasses_perm k l').mem_iff).mp hx
    have hx2 : x ∈ l := by
      have hx3 : x ∈ bubblePassUpTo (k + 1) l := by
        rw [heq]; exact List.mem_append_left _ hx1
      exact ((bubblePassUpTo_perm (k + 1) l).mem_iff).mp hx3
    exact hmax x hx2

theorem bubbleSort_perm (l : List ℚ) : (bubbleSort l).Perm l :=
  bubbleSortPasses_perm (l.length - 1) l

theorem bubbleSort_sorted (l : List ℚ) : (bubbleSort l).Sorted (· ≤ ·) := by
  rcases l with _ | ⟨a, rest⟩
  · simp [bubbleSort, bubbleSortPasses]
  · have h : (a :: rest).length - 1 = rest.length := by simp
    unfold bubbleSort
    rw [h]
    exact bubbleSortPasses_sorted rest.length (a :: rest) (by simp)

theorem bubbleSort_length (l : List ℚ) : (bubbleSort l).length = l.length :=
  (bubbleSort_perm l).length_eq

/-! ## Helper facts about the validate step and the median -/

theorem validateSpeedData_speedValid_iff (raw : SpeedSensorRawData)
    (cal : SpeedSensorCalibration) (sd : SpeedData) :
    (SpeedSensor_ValidateSpeedData raw cal sd).speedValid = false ↔
      (sd.wheelSpeed < 0 ∨ MAX_WHEEL_SPEED_KMH < sd.wheelSpeed ∨
        raw.status ≠ SensorStatus.ok ∨ cal.calibrationValid = false) := by
  unfold SpeedSensor_ValidateSpeedData
  simp only [ne_eq, Bool.not_eq_true]
  split_ifs <;> simp_all

theorem calculateSpeed_zero (raw : SpeedSensorRawData) (cal : SpeedSensorCalibration)
    (lastSpeed : ℚ) (sd : SpeedData)
    (h : ¬(0 < raw.timeInterval ∧ 0 < cal.pulsesPerRevolution)) :
    (SpeedSensor_CalculateSpeed raw cal lastSpeed sd).wheelSpeed = 0 := by
  unfold SpeedSensor_CalculateSpeed
  rw [if_neg h]

theorem medianOfList_four (l : List ℚ) (h : l.length = 4) :
    medianOfList l = ((bubbleSort l).getD 1 0 + (bubbleSort l).getD 2 0) / 2 := by
  simp only [medianOfList, h]
  norm_num

theorem medianOfList_three (l : List ℚ) (h : l.length = 3) :
    medianOfList l = (bubbleSort l).getD 1 0 := by
  simp only [medianOfList, h]
  norm_num

/-! ## Claim C1 -/

/-- Claim C1 evaluated at the failing input: a wheel sees the fault condition
detected for five consecutive 20 ms cycles (accumulating the 100 ms debounce
interval, so the record becomes confirmed), and on the sixth cycle the fault
condition is no longer detected.  The code leaves confirmedMalfunction and
isActive TRUE after that sixth cycle — only the debounce counter is reset (and
immediately re-incremented to 20 ms because isActive is never cleared by
ABS_ProcessWheelMalfunctionDetection) — whereas the claim requires the record
to return to unconfirmed on the first cycle without the fault. -/
theorem claim_C1_code_eval :
    (ABS_RunCycles ABS_InitDefaultParameters
        ABS_MalfunctionType.speedDifferenceExcessive ABS_MalfunctionSeverity.medium 35
        [true, true, true, true, true, false]
        (initWheelDetectionState 0)).status.confirmedMalfunction = true ∧
    (ABS_RunCycles ABS_InitDefaultParameters
        ABS_MalfunctionType.speedDifferenceExcessive ABS_MalfunctionSeverity.medium 35
        [true, true, true, true, true, false]
        (initWheelDetectionState 0)).status.isActive = true ∧
    (ABS_RunCycles ABS_InitDefaultParameters
        ABS_MalfunctionType.speedDifferenceExcessive ABS_MalfunctionSeverity.medium 35
        [true, true, true, true, true, false]
        (initWheelDetectionState 0)).debounceCounter = 20 := by
  decide

/-! ## Claim C2 -/

/-- The raw sample of the C2 counterexample: elapsed time zero, hardware OK. -/
def c2RawSample : SpeedSensorRawData :=
  { pulseCount := 0, timeInterval := 0, status := SensorStatus.ok, dataValid := true }

/-- Claim C2 counterexample: with elapsed time 0 (hardware status OK, default
calibration), the computed speed is 0, which passes the range check, so the
Speed Processor leaves the validity flag TRUE — the claim requires validity
false whenever the raw sample's elapsed time is zero. -/
theorem claim_C2_counterexample :
    (SpeedSensor_ProcessCycle c2RawSample defaultCalibration 0 zeroSpeedData).speedValid = true := by
  decide

/-- Claim C2 (amended): the Speed Processor sets the validity flag to false
exactly when the computed calibrated speed lies outside [0, MAX_SPEED], the
upstream hardware status is not OK, or the calibration validity flag is
unset; a zero elapsed time or zero pulses-per-revolution only forces the
computed speed to 0 and does not by itself clear the validity flag. -/
theorem claim_C2_amended (raw : SpeedSensorRawData) (cal : SpeedSensorCalibration)
    (lastSpeed : ℚ) (sd : SpeedData) :
    ((SpeedSensor_ProcessCycle raw cal lastSpeed sd).speedValid = false ↔
      ((SpeedSensor_CalculateSpeed raw cal lastSpeed sd).wheelSpeed < 0 ∨
        MAX_WHEEL_SPEED_KMH < (SpeedSensor_CalculateSpeed raw cal lastSpeed sd).wheelSpeed ∨
        raw.status ≠ SensorStatus.ok ∨ cal.calibrationValid = false)) ∧
    (¬(0 < raw.timeInterval ∧ 0 < cal.pulsesPerRevolution) →
      (SpeedSensor_CalculateSpeed raw cal lastSpeed sd).wheelSpeed = 0) :=
  ⟨validateSpeedData_speedValid_iff raw cal _,
   calculateSpeed_zero raw cal lastSpeed sd⟩

/-- Witness for the amended C2 at a concrete input: a sensor reporting a
short circuit makes the validity flag false. -/
theorem claim_C2_amended_witness :
    (SpeedSensor_ProcessCycle
        { pulseCount := 100, timeInterval := 50, status := SensorStatus.shortCircuit,
          dataValid := true }
        defaultCalibration 0 zeroSpeedData).speedValid = false ∧
    (SpeedSensor_CalculateSpeed c2RawSample defaultCalibration 0 zeroSpeedData).wheelSpeed = 0 := by
  constructor
  · exact (claim_C2_amended
      { pulseCount := 100, timeInterval := 50, status := SensorStatus.shortCircuit,
        dataValid := true }
      defaultCalibration 0 zeroSpeedData).1.mpr
      (Or.inr (Or.inr (Or.inl (by decide))))
  · exact (claim_C2_amended c2RawSample defaultCalibration 0 zeroSpeedData).2 (by decide)

/-! ## Claim C3 -/

/-- A SpeedData sample carrying just a speed value and a validity flag. -/
def mkSpeedSample (speed : ℚ) (valid : Bool) : SpeedData :=
  { wheelSpeed := speed, wheelSpeedRaw := speed, accelerationX := 0
    speedValid := valid, qualityFactor := 100 }

/-- Vehicle data for the C3 counterexample: wheel 0 invalid, wheels 1 and 2
at 100 km/h, wheel 3 at 140 km/h. -/
def c3VehicleData : ABS_VehicleData :=
  { wheelSpeeds := fun w =>
      if w = 0 then mkSpeedSample 0 false
      else if w = 3 then mkSpeedSample 140 true
      else mkSpeedSample 100 true
    vehicleReferenceSpeed := 0
    longitudinalAcceleration := 0
    lateralAcceleration := 0
    brakePedalPressed := false
    vehicleStabilityActive := false
    systemState := ABS_SystemState.monitoring }

/-- Claim C3 counterexample: the invalid wheel 0 is reported implausible with
deviation 0, while the valid wheel 3 carries deviation 40 from the reference
(the median 100 of the three valid speeds) — so the invalid wheel's recorded
deviation magnitude is minimal, not maximal. -/
theorem claim_C3_counterexample :
    (ABS_CheckSpeedPlausibility ABS_InitDefaultParameters c3VehicleData 0).2 = 0 ∧
    (ABS_CheckSpeedPlausibility ABS_InitDefaultParameters c3VehicleData 3).2 = 40 ∧
    ¬(40 ≤ (0 : ℚ)) := by
  have hvalid : validSpeedList c3VehicleData = [100, 100, 140] := by
    simp [validSpeedList, c3VehicleData, mkSpeedSample,
      show (0 : Fin 4) = 0 by decide, show (1 : Fin 4) ≠ 0 by decide,
      show (2 : Fin 4) ≠ 0 by decide, show (3 : Fin 4) ≠ 0 by decide,
      show (1 : Fin 4) ≠ 3 by decide, show (2 : Fin 4) ≠ 3 by decide,
      show (3 : Fin 4) = 3 by decide]
  have hsorted : bubbleSort [(100 : ℚ), 100, 140] = [100, 100, 140] := by
    norm_num [bubbleSort, bubbleSortPasses, bubblePassUpTo]
  have hmed : ABS_CalculateMedianSpeed c3VehicleData = 100 := by
    rw [ABS_CalculateMedianSpeed, hvalid, medianOfList_three _ (by norm_num), hsorted]
    norm_num
  refine ⟨?_, ?_, by norm_num⟩
  · simp [ABS_CheckSpeedPlausibility, c3VehicleData, mkSpeedSample,
      show (0 : Fin 4) = 0 by decide]
  · have h3 : c3VehicleData.wheelSpeeds 3 = mkSpeedSample 140 true := by
      simp [c3VehicleData, show (3 : Fin 4) ≠ 0 by decide]
    simp only [ABS_CheckSpeedPlausibility, h3, hmed, mkSpeedSample]
    rw [show (140 : ℚ) - 100 = 40 by norm_num,
      abs_of_nonneg (by norm_num : (0 : ℚ) ≤ 40)]
    norm_num

/-- Replace wheel w's reported speed value, leaving its validity flag and all
other wheels untouched. -/
def setWheelSpeedValue (vd : ABS_VehicleData) (w : Fin 4) (q : ℚ) : ABS_VehicleData :=
  { vd with wheelSpeeds :=
      Function.update vd.wheelSpeeds w { vd.wheelSpeeds w with wheelSpeed := q } }

/-- Claim C3 (amended): a wheel whose SpeedSample is invalid fails the
cross-wheel-deviation check (isPlausible = false) but with recorded deviation
0 rather than a maximal one, and its speed value is excluded from the
reference-speed computation (changing it cannot affect the median). -/
theorem setWheelSpeedValue_entry (vd : ABS_VehicleData) (w : Fin 4) (q : ℚ)
    (i : Fin 4) (h : (vd.wheelSpeeds w).speedValid = false) :
    (if ((setWheelSpeedValue vd w q).wheelSpeeds i).speedValid = true
      then [((setWheelSpeedValue vd w q).wheelSpeeds i).wheelSpeed] else []) =
    (if (vd.wheelSpeeds i).speedValid = true
      then [(vd.wheelSpeeds i).wheelSpeed] else []) := by
  by_cases hiw : i = w
  · subst hiw
    simp [setWheelSpeedValue, Function.update_same, h]
  · simp [setWheelSpeedValue, Function.update_noteq hiw]

theorem claim_C3_amended (params : ABS_DetectionParameters) (vd : ABS_VehicleData)
    (w : Fin 4) (h : (vd.wheelSpeeds w).speedValid = false) :
    ABS_CheckSpeedPlausibility params vd w = (false, 0) ∧
    ∀ q : ℚ, ABS_CalculateMedianSpeed (setWheelSpeedValue vd w q) =
      ABS_CalculateMedianSpeed vd := by
  constructor
  · simp [ABS_CheckSpeedPlausibility, h]
  · intro q
    suffices hlist : validSpeedList (setWheelSpeedValue vd w q) = validSpeedList vd by
      simp [ABS_CalculateMedianSpeed, hlist]
    simp only [validSpeedList, setWheelSpeedValue_entry vd w q _ h]

/-- Witness for the amended C3 at the concrete counterexample vehicle data. -/
theorem claim_C3_amended_witness :
    ABS_CheckSpeedPlausibility ABS_InitDefaultParameters c3VehicleData 0 = (false, 0) ∧
    ∀ q : ℚ, ABS_CalculateMedianSpeed (setWheelSpeedValue c3VehicleData 0 q) =
      ABS_CalculateMedianSpeed c3VehicleData :=
  claim_C3_amended ABS_InitDefaultParameters c3VehicleData 0 (by decide)

/-! ## Claim C4 -/

/-- Claim C4: the reference speed is the median of the currently-valid wheel
speeds.  With all four wheels valid it is the average of the two middle
values of a sorted rearrangement of the four speeds; with exactly one wheel
invalid it is the middle value of a sorted rearrangement of the remaining
three valid speeds. -/
theorem claim_C4 (vd : ABS_VehicleData) :
    ((∀ w : Fin 4, (vd.wheelSpeeds w).speedValid = true) →
      ∃ l' : List ℚ, l'.Perm (validSpeedList vd) ∧ l'.Sorted (· ≤ ·) ∧ l'.length = 4 ∧
        ABS_CalculateMedianSpeed vd = (l'.getD 1 0 + l'.getD 2 0) / 2) ∧
    (∀ w0 : Fin 4, (vd.wheelSpeeds w0).speedValid = false →
      (∀ w : Fin 4, w ≠ w0 → (vd.wheelSpeeds w).speedValid = true) →
      ∃ l' : List ℚ, l'.Perm (validSpeedList vd) ∧ l'.Sorted (· ≤ ·) ∧ l'.length = 3 ∧
        ABS_CalculateMedianSpeed vd = l'.getD 1 0) := by
  constructor
  · intro hall
    have hlen : (validSpeedList vd).length = 4 := by
      simp [validSpeedList, hall 0, hall 1, hall 2, hall 3]
    refine ⟨bubbleSort (validSpeedList vd), bubbleSort_perm _, bubbleSort_sorted _, ?_, ?_⟩
    · rw [bubbleSort_length, hlen]
    · rw [ABS_CalculateMedianSpeed, medianOfList_four _ hlen]
  · intro w0 hinv hval
    have hlen : (validSpeedList vd).length = 3 := by
      fin_cases w0
      · have h1 := hval 1 (by decide)
        have h2 := hval 2 (by decide)
        have h3 := hval 3 (by decide)
        simp_all [validSpeedList]
      · have h1 := hval 0 (by decide)
        have h2 := hval 2 (by decide)
        have h3 := hval 3 (by decide)
        simp_all [validSpeedList]
      · have h1 := hval 0 (by decide)
        have h2 := hval 1 (by decide)
        have h3 := hval 3 (by decide)
        simp_all [validSpeedList]
      · have h1 := hval 0 (by decide)
        have h2 := hval 1 (by decide)
        have h3 := hval 2 (by decide)
        simp_all [validSpeedList]
    refine ⟨bubbleSort (validSpeedList vd), bubbleSort_perm _, bubbleSort_sorted _, ?_, ?_⟩
    · rw [bubbleSort_length, hlen]
    · rw [ABS_CalculateMedianSpeed, medianOfList_three _ hlen]

/-- Vehicle data with all four wheels valid, for the C4 witness. -/
def c4VehicleData : ABS_VehicleData :=
  { wheelSpeeds := fun w =>
      if w = 0 then mkSpeedSample 80 true
      else if w = 1 then mkSpeedSample 100 true
      else if w = 2 then mkSpeedSample 90 true
      else mkSpeedSample 110 true
    vehicleReferenceSpeed := 0
    longitudinalAcceleration := 0
    lateralAcceleration := 0
    brakePedalPressed := false
    vehicleStabilityActive := false
    systemState := ABS_SystemState.monitoring }

/-- Witness for C4 at a concrete all-valid vehicle state. -/
theorem claim_C4_witness :
    ∃ l' : List ℚ, l'.Perm (validSpeedList c4VehicleData) ∧ l'.Sorted (· ≤ ·) ∧ l'.length = 4 ∧
      ABS_CalculateMedianSpeed c4VehicleData = (l'.getD 1 0 + l'.getD 2 0) / 2 :=
  (claim_C4 c4VehicleData).1 (by decide)

/-! ## Claim C5 -/

/-- The validation conditions of claim C5 on a session's computed values:
correction factor within the configured band, measured accuracy at least
100 minus the requested tolerance. -/
def sessionMeetsValidation (config : CalibrationConfig) (s : CalibrationSession) : Prop :=
  config.minCorrectionFactor ≤ s.calculatedCorrectionFactor ∧
  s.calculatedCorrectionFactor ≤ config.maxCorrectionFactor ∧
  100 - s.request.tolerancePercentage ≤ s.measuredAccuracy

theorem validateCalculated_true_iff (config : CalibrationConfig) (s : CalibrationSession) :
    CalibrationManager_ValidateCalculatedCalibration config s = true ↔
      sessionMeetsValidation config s := by
  unfold CalibrationManager_ValidateCalculatedCalibration sessionMeetsValidation
  split_ifs with h1 h2 <;> simp_all

theorem calculateCalibration_true_meets (config : CalibrationConfig)
    (sd : CalibrationSampleData) (s : CalibrationSession)
    (h : (CalibrationManager_CalculateCalibration config sd s).1 = true) :
    sessionMeetsValidation config (CalibrationManager_CalculateCalibration config sd s).2 := by
  unfold CalibrationManager_CalculateCalibration at h ⊢
  dsimp only at h ⊢
  split_ifs at h ⊢ with h1
  exact (validateCalculated_true_iff _ _).mp h

/-- Claim C5: for a session step in the in-progress state, (i) whenever the
step transitions the session to `completed`, the computed correction factor
lies within the configured [min, max] band and the measured accuracy is at
least 100 minus the requested tolerance; (ii) whenever the computation point
is reached (a sample was collected, the minimum sample count is present and
the requested time budget has elapsed), the absolute session timeout has not
elapsed, and the computed values fail either validation condition, the
session transitions to `failed` with a validation-failure result instead. -/
theorem claim_C5 (config : CalibrationConfig) (getOk : Bool) (speedData : SpeedData)
    (s : CalibrationSession) (sd : CalibrationSampleData)
    (hs : s.state = CalibrationState.inProgress) :
    ((CalibrationManager_ProcessCalibrationSession config getOk speedData s sd).1.state =
        CalibrationState.completed →
      sessionMeetsValidation config
        (CalibrationManager_ProcessCalibrationSession config getOk speedData s sd).1) ∧
    ((CalibrationManager_CollectSample config getOk speedData s sd).1 = true →
      config.minCalibrationSamples ≤
        (CalibrationManager_CollectSample config getOk speedData s sd).2.sampleCount →
      s.request.calibrationTimeMs ≤ uint32Sub 0 s.startTimestamp →
      uint32Sub 0 s.startTimestamp < config.calibrationTimeoutMs →
      ¬ sessionMeetsValidation config
        (CalibrationManager_CalculateCalibration config
          (CalibrationManager_CollectSample config getOk speedData s sd).2
          { s with samplesCollected :=
              (CalibrationManager_CollectSample config getOk speedData s sd).2.sampleCount }).2 →
      (CalibrationManager_ProcessCalibrationSession config getOk speedData s sd).1.state =
          CalibrationState.failed ∧
        (CalibrationManager_ProcessCalibrationSession config getOk speedData s sd).1.result =
          CalibrationResult.validationFailed) := by
  obtain ⟨req, st, res, t0, t1, scol, ccf, coff, macc, sact⟩ := s
  dsimp only at hs
  subst hs
  unfold CalibrationManager_ProcessCalibrationSession
  constructor
  · intro hcomp
    dsimp only at hcomp ⊢
    split_ifs at hcomp ⊢
    exact calculateCalibration_true_meets config _ _ (by assumption)
  · intro hcol hmin hbudget htimeout hnotmeets
    have hcalc : (CalibrationManager_CalculateCalibration config
        (CalibrationManager_CollectSample config getOk speedData
          ⟨req, CalibrationState.inProgress, res, t0, t1, scol, ccf, coff, macc, sact⟩ sd).2
        ⟨req, CalibrationState.inProgress, res, t0, t1,
          (CalibrationManager_CollectSample config getOk speedData
            ⟨req, CalibrationState.inProgress, res, t0, t1, scol, ccf, coff, macc, sact⟩ sd).2.sampleCount,
          ccf, coff, macc, sact⟩).1 = false := by
      by_contra hne
      have hne' := calculateCalibration_true_meets config _ _ (by simpa using hne)
      exact absurd hne' (by dsimp only at hnotmeets; exact hnotmeets)
    dsimp only at hcol hmin hbudget htimeout ⊢
    split_ifs <;> simp_all
    omega

/-- A configuration accepting a single calibration sample, for the C5
witness. -/
def c5Config : CalibrationConfig :=
  { CalibrationManager_InitDefaultConfig with minCalibrationSamples := 1 }

/-- An in-progress session with reference speed 50 and a zero time budget,
for the C5 witness. -/
def c5Session : CalibrationSession :=
  { request :=
      { wheelPosition := 0
        method := CalibrationMethod.manual
        referenceSpeed := 50
        tolerancePercentage := 2
        calibrationTimeMs := 0
        forceCalibration := false }
    state := CalibrationState.inProgress
    result := CalibrationResult.inProgress
    startTimestamp := 0
    endTimestamp := 0
    samplesCollected := 0
    calculatedCorrectionFactor := 1
    calculatedOffset := 0
    measuredAccuracy := 0
    sessionActive := true }

/-- Witness for C5 part (ii): a live speed of 10 km/h against reference 50
computes a correction factor 5 outside the band, so the session fails with a
validation-failure result. -/
theorem claim_C5_witness :
    (CalibrationManager_ProcessCalibrationSession c5Config true (mkSpeedSample 10 true)
        c5Session zeroSampleData).1.state = CalibrationState.failed ∧
    (CalibrationManager_ProcessCalibrationSession c5Config true (mkSpeedSample 10 true)
        c5Session zeroSampleData).1.result = CalibrationResult.validationFailed := by
  refine (claim_C5 c5Config true (mkSpeedSample 10 true) c5Session zeroSampleData rfl).2
    (by decide) (by decide) (by decide) (by decide) ?_
  intro hmeets
  have hfac : (CalibrationManager_CalculateCalibration c5Config
      (CalibrationManager_CollectSample c5Config true (mkSpeedSample 10 true)
        c5Session zeroSampleData).2
      { c5Session with samplesCollected :=
          (CalibrationManager_CollectSample c5Config true (mkSpeedSample 10 true)
            c5Session zeroSampleData).2.sampleCount }).2.calculatedCorrectionFactor = 5 := by
    norm_num [CalibrationManager_CalculateCalibration, CalibrationManager_CollectSample,
      usedSamples, c5Config, c5Session, mkSpeedSample, zeroSampleData,
      CalibrationManager_InitDefaultConfig]
  have hmax : c5Config.maxCorrectionFactor = 3/2 := rfl
  have h2 := hmeets.2.1
  rw [hfac, hmax] at h2
  norm_num at h2

/-! ## Claim C6 -/

/-- Claim C6: with a session already active for the wheel, startCalibration
returns the session-busy code CALIBRATION_RESULT_IN_PROGRESS and leaves the
session and sample buffer unchanged; otherwise it returns E_OK, installs the
request, transitions the session to `requested`, marks it active, resets the
collected-sample count and zeroes the wheel's sample buffer. -/
theorem claim_C6 (req : CalibrationRequest) (s : CalibrationSession)
    (sd : CalibrationSampleData) :
    (s.sessionActive = true →
      CalibrationManager_StartCalibration req s sd =
        (CALIBRATION_RESULT_IN_PROGRESS_CODE, s, sd)) ∧
    (s.sessionActive = false →
      (CalibrationManager_StartCalibration req s sd).1 = E_OK ∧
      (CalibrationManager_StartCalibration req s sd).2.1.state = CalibrationState.requested ∧
      (CalibrationManager_StartCalibration req s sd).2.1.sessionActive = true ∧
      (CalibrationManager_StartCalibration req s sd).2.1.request = req ∧
      (CalibrationManager_StartCalibration req s sd).2.1.samplesCollected = 0 ∧
      (CalibrationManager_StartCalibration req s sd).2.2 = zeroSampleData) := by
  unfold CalibrationManager_StartCalibration
  constructor
  · intro h
    rw [if_neg (by simp [h])]
  · intro h
    rw [if_pos h]
    simp

/-- A busy calibration session for the C6 witness. -/
def c6BusySession : CalibrationSession :=
  { c5Session with state := CalibrationState.inProgress, sessionActive := true }

/-- An idle calibration session for the C6 witness. -/
def c6IdleSession : CalibrationSession :=
  { c5Session with
    state := CalibrationState.idle
    result := CalibrationResult.ok
    sessionActive := false }

/-- Witness for C6 at concrete sessions: the busy wheel keeps its state and
gets the busy code; the idle wheel transitions to `requested`. -/
theorem claim_C6_witness :
    CalibrationManager_StartCalibration c5Session.request c6BusySession zeroSampleData =
      (CALIBRATION_RESULT_IN_PROGRESS_CODE, c6BusySession, zeroSampleData) ∧
    (CalibrationManager_StartCalibration c5Session.request c6IdleSession zeroSampleData).2.1.state =
      CalibrationState.requested :=
  ⟨(claim_C6 c5Session.request c6BusySession zeroSampleData).1 (by decide),
   ((claim_C6 c5Session.request c6IdleSession zeroSampleData).2 (by decide)).2.1⟩

/-! ## Claim C7 -/

/-- Claim C7: applyCalibration returns E_OK only from a `completed` session
with an OK result; from such a session (with computed factor inside the
(0.5, 2.0) window SpeedSensor_SetCalibration enforces and sane live
geometry) it writes the computed correction factor and offset into the live
calibration coefficients, and if persistence is requested and the NVM write
fails, the call returns E_NOT_OK while the in-memory coefficients remain the
newly applied values. -/
theorem claim_C7 (s : CalibrationSession) (live : SpeedSensorCalibration)
    (saveToNvm nvmWriteOk : Bool) :
    ((CalibrationManager_ApplyCalibration s live saveToNvm nvmWriteOk).1 = E_OK →
      s.state = CalibrationState.completed ∧ s.result = CalibrationResult.ok) ∧
    (s.state = CalibrationState.completed → s.result = CalibrationResult.ok →
      1/2 < s.calculatedCorrectionFactor → s.calculatedCorrectionFactor < 2 →
      0 < live.pulsesPerRevolution → 0 < live.wheelCircumference →
      ((CalibrationManager_ApplyCalibration s live saveToNvm nvmWriteOk).2.correctionFactor =
          s.calculatedCorrectionFactor ∧
        (CalibrationManager_ApplyCalibration s live saveToNvm nvmWriteOk).2.offsetValue =
          s.calculatedOffset ∧
        (CalibrationManager_ApplyCalibration s live saveToNvm nvmWriteOk).2.calibrationValid =
          true) ∧
      (saveToNvm = true → nvmWriteOk = false →
        (CalibrationManager_ApplyCalibration s live saveToNvm nvmWriteOk).1 = E_NOT_OK)) := by
  constructor
  · intro hok
    unfold CalibrationManager_ApplyCalibration at hok
    split_ifs at hok with h1 <;> simp_all [E_OK, E_NOT_OK]
  · intro hst hres hlo hhi hppr hcirc
    unfold CalibrationManager_ApplyCalibration SpeedSensor_SetCalibration
    dsimp only
    split_ifs <;> simp_all [E_OK, E_NOT_OK]

/-- A completed session with result OK and computed factor 1.2, for the C7
witness. -/
def c7Session : CalibrationSession :=
  { c5Session with
    state := CalibrationState.completed
    result := CalibrationResult.ok
    calculatedCorrectionFactor := 6/5
    calculatedOffset := 0
    measuredAccuracy := 99
    sessionActive := false }

/-- Witness for C7 at a concrete completed session with a failing NVM write:
the call reports E_NOT_OK while the live coefficients hold the newly applied
factor. -/
theorem claim_C7_witness :
    (CalibrationManager_ApplyCalibration c7Session defaultCalibration true false).2.correctionFactor =
      c7Session.calculatedCorrectionFactor ∧
    (CalibrationManager_ApplyCalibration c7Session defaultCalibration true false).1 = E_NOT_OK := by
  have h := (claim_C7 c7Session defaultCalibration true false).2 rfl rfl
    (by norm_num [c7Session, c5Session]) (by norm_num [c7Session, c5Session])
    (by norm_num [defaultCalibration]) (by norm_num [defaultCalibration])
  exact ⟨h.1.1, h.2 rfl rfl⟩

/-! ## Claim C8 -/

theorem clearDTCSlot_idem (e : DTCInfo) : clearDTCSlot (clearDTCSlot e) = clearDTCSlot e := by
  unfold clearDTCSlot
  by_cases h : e.dtcNumber ≠ 0 <;> simp [h]

theorem clearAllDTCs_idem (table : List DTCInfo) :
    DiagnosticService_ClearAllDTCs (DiagnosticService_ClearAllDTCs table) =
      DiagnosticService_ClearAllDTCs table := by
  unfold DiagnosticService_ClearAllDTCs
  rw [List.map_map]
  exact List.map_congr_left (fun e _ => clearDTCSlot_idem e)

theorem clearMalfunctionStatus_idem (s : WheelDetectionState) :
    ABS_ClearMalfunctionStatus (ABS_ClearMalfunctionStatus s) = ABS_ClearMalfunctionStatus s :=
  rfl

theorem findDTC_eq_none (n : ℕ) (table : List DTCInfo)
    (h : ∀ e ∈ table, e.dtcNumber ≠ n) : DiagnosticService_FindDTC n table = Option.none := by
  induction table with
  | nil => rfl
  | cons e rest ih =>
    unfold DiagnosticService_FindDTC
    rw [if_neg (h e (by simp)), ih (fun x hx => h x (by simp [hx]))]
    rfl

/-- Claim C8: (i) processing a clear request with group code 0xFFFFFF twice
in a row yields the same DTC table after each request and the same (cleared)
per-wheel MalfunctionRecords, with every wheel's record inactive,
unconfirmed and without fault classification; (ii) a clear request whose
group code matches no table entry is answered with the negative response
[0x7F, 0x14, 0x31] (request out of range) and leaves the table and the wheel
records unchanged. -/
theorem udsClearAll_eq (requestData : List ℕ) (maxResponseLength : ℕ)
    (table : List DTCInfo) (wheels : Fin 4 → WheelDetectionState)
    (hlen : 3 ≤ requestData.length) (hmax : 1 ≤ maxResponseLength)
    (hgroup : (requestData.getD 0 0) <<< 16 ||| (requestData.getD 1 0) <<< 8 |||
      requestData.getD 2 0 = 0xFFFFFF) :
    UDS_ClearDiagnosticInformation requestData maxResponseLength table wheels =
      ([UDS_SID_CLEAR_DIAGNOSTIC_INFORMATION + 0x40],
        DiagnosticService_ClearAllDTCs table,
        fun w => ABS_ClearMalfunctionStatus (wheels w)) := by
  unfold UDS_ClearDiagnosticInformation
  rw [if_pos ⟨hlen, hmax⟩]
  dsimp only
  rw [if_pos hgroup]

theorem claim_C8 (table : List DTCInfo) (wheels : Fin 4 → WheelDetectionState)
    (requestData : List ℕ) (maxResponseLength : ℕ)
    (hlen : 3 ≤ requestData.length) (hmax : 1 ≤ maxResponseLength) :
    ((requestData.getD 0 0) <<< 16 ||| (requestData.getD 1 0) <<< 8 |||
        requestData.getD 2 0 = 0xFFFFFF →
      (UDS_ClearDiagnosticInformation requestData maxResponseLength
          (UDS_ClearDiagnosticInformation requestData maxResponseLength table wheels).2.1
          (UDS_ClearDiagnosticInformation requestData maxResponseLength table wheels).2.2).2.1 =
        (UDS_ClearDiagnosticInformation requestData maxResponseLength table wheels).2.1 ∧
      (UDS_ClearDiagnosticInformation requestData maxResponseLength
          (UDS_ClearDiagnosticInformation requestData maxResponseLength table wheels).2.1
          (UDS_ClearDiagnosticInformation requestData maxResponseLength table wheels).2.2).2.2 =
        (UDS_ClearDiagnosticInformation requestData maxResponseLength table wheels).2.2 ∧
      ∀ w : Fin 4,
        ((UDS_ClearDiagnosticInformation requestData maxResponseLength table wheels).2.2 w).status.isActive = false ∧
        ((UDS_ClearDiagnosticInformation requestData maxResponseLength table wheels).2.2 w).status.confirmedMalfunction = false ∧
        ((UDS_ClearDiagnosticInformation requestData maxResponseLength table wheels).2.2 w).status.malfunctionType = ABS_MalfunctionType.none ∧
        ((UDS_ClearDiagnosticInformation requestData maxResponseLength table wheels).2.2 w).status.severity = ABS_MalfunctionSeverity.none) ∧
    ((requestData.getD 0 0) <<< 16 ||| (requestData.getD 1 0) <<< 8 |||
        requestData.getD 2 0 ≠ 0xFFFFFF →
      (∀ e ∈ table, e.dtcNumber ≠
        ((requestData.getD 0 0) <<< 16 ||| (requestData.getD 1 0) <<< 8 |||
          requestData.getD 2 0)) →
      (UDS_ClearDiagnosticInformation requestData maxResponseLength table wheels).1 =
        [UDS_NEGATIVE_RESPONSE_SID, UDS_SID_CLEAR_DIAGNOSTIC_INFORMATION,
          UDS_NRC_REQUEST_OUT_OF_RANGE] ∧
      (UDS_ClearDiagnosticInformation requestData maxResponseLength table wheels).2.1 = table ∧
      (UDS_ClearDiagnosticInformation requestData maxResponseLength table wheels).2.2 = wheels) := by
  constructor
  · intro hgroup
    rw [udsClearAll_eq requestData maxResponseLength table wheels hlen hmax hgroup]
    dsimp only
    rw [udsClearAll_eq requestData maxResponseLength _ _ hlen hmax hgroup]
    refine ⟨clearAllDTCs_idem table, funext fun w => clearMalfunctionStatus_idem (wheels w), ?_⟩
    intro w
    exact ⟨rfl, rfl, rfl, rfl⟩
  · intro hgroup hnone
    unfold UDS_ClearDiagnosticInformation
    rw [if_pos ⟨hlen, hmax⟩]
    dsimp only
    rw [if_neg hgroup]
    unfold DiagnosticService_ClearDTC
    rw [findDTC_eq_none _ _ hnone]
    dsimp only
    rw [if_neg (by simp)]
    exact ⟨rfl, rfl, rfl⟩

/-- A two-entry DTC table for the C8 and C10 witnesses. -/
def c8Table : List DTCInfo :=
  [ { dtcNumber := 0xC14100
      status :=
        { testFailed := true, testFailedThisOperationCycle := true, pendingDTC := true
          confirmedDTC := true, testNotCompletedSinceLastClear := false
          testFailedSinceLastClear := false, testNotCompletedThisOperationCycle := false
          warningIndicatorRequested := false }
      severity := 2, functionalUnit := 0, affectedWheel := 0
      occurrenceCount := 3, firstFailureTimestamp := 0, lastFailureTimestamp := 0
      malfunctionType := ABS_MalfunctionType.speedSensorMiscalibration },
    { dtcNumber := 0, status := clearedDTCStatus, severity := 0, functionalUnit := 0
      affectedWheel := 0, occurrenceCount := 0, firstFailureTimestamp := 0
      lastFailureTimestamp := 0, malfunctionType := ABS_MalfunctionType.none } ]

/-- Witness for C8 at a concrete table, wheel set and the two concrete
requests (clear-all twice; clear of the unknown code 0xC14999). -/
theorem claim_C8_witness :
    ((UDS_ClearDiagnosticInformation [0xFF, 0xFF, 0xFF] 8
        (UDS_ClearDiagnosticInformation [0xFF, 0xFF, 0xFF] 8 c8Table
          (fun _ => initWheelDetectionState 0)).2.1
        (UDS_ClearDiagnosticInformation [0xFF, 0xFF, 0xFF] 8 c8Table
          (fun _ => initWheelDetectionState 0)).2.2).2.1 =
      (UDS_ClearDiagnosticInformation [0xFF, 0xFF, 0xFF] 8 c8Table
        (fun _ => initWheelDetectionState 0)).2.1) ∧
    (UDS_ClearDiagnosticInformation [0xC1, 0x49, 0x99] 8 c8Table
        (fun _ => initWheelDetectionState 0)).1 =
      [UDS_NEGATIVE_RESPONSE_SID, UDS_SID_CLEAR_DIAGNOSTIC_INFORMATION,
        UDS_NRC_REQUEST_OUT_OF_RANGE] := by
  constructor
  · exact ((claim_C8 c8Table (fun _ => initWheelDetectionState 0) [0xFF, 0xFF, 0xFF] 8
      (by decide) (by decide)).1 (by decide)).1
  · exact (((claim_C8 c8Table (fun _ => initWheelDetectionState 0) [0xC1, 0x49, 0x99] 8
      (by decide) (by decide)).2 (by decide) (by decide))).1

/-! ## Claim C9 -/

/-- Claim C9 counterexample: with the default configuration band [0.5, 1.5],
SpeedSensor_SetCalibration accepts a correction factor of 1.8 (validating
only against its own hardcoded (0.5, 2.0) window) and stores it with the
validity flag set — violating the claimed invariant that a record marked
valid has its correction factor inside the configured band. -/
theorem claim_C9_counterexample :
    (SpeedSensor_SetCalibration { defaultCalibration with correctionFactor := 9/5 }
        defaultCalibration).1 = true ∧
    (SpeedSensor_SetCalibration { defaultCalibration with correctionFactor := 9/5 }
        defaultCalibration).2.calibrationValid = true ∧
    (SpeedSensor_SetCalibration { defaultCalibration with correctionFactor := 9/5 }
        defaultCalibration).2.correctionFactor = 9/5 ∧
    CalibrationManager_InitDefaultConfig.maxCorrectionFactor < 9/5 := by
  norm_num [SpeedSensor_SetCalibration, defaultCalibration, CalibrationManager_InitDefaultConfig]

/-- Claim C9 (amended): the validity invariant actually enforced at the
storing operation is the hardcoded open window (0.5, 2.0) of
SpeedSensor_SetCalibration, not the configured [min, max] band: whenever the
store succeeds, the stored record is marked valid, carries the requested
correction factor, and that factor lies strictly between 0.5 and 2.0;
whenever the window check rejects, the live record is unchanged. -/
theorem claim_C9_amended (cal live : SpeedSensorCalibration) :
    ((SpeedSensor_SetCalibration cal live).1 = true →
      (SpeedSensor_SetCalibration cal live).2.calibrationValid = true ∧
      (SpeedSensor_SetCalibration cal live).2.correctionFactor = cal.correctionFactor ∧
      1/2 < (SpeedSensor_SetCalibration cal live).2.correctionFactor ∧
      (SpeedSensor_SetCalibration cal live).2.correctionFactor < 2) ∧
    ((SpeedSensor_SetCalibration cal live).1 = false →
      (SpeedSensor_SetCalibration cal live).2 = live) := by
  unfold SpeedSensor_SetCalibration
  split_ifs with h1
  · exact ⟨fun _ => ⟨rfl, rfl, h1.1, h1.2.1⟩, by simp⟩
  · exact ⟨by simp, fun _ => rfl⟩

/-- Witness for the amended C9 at the 1.8-factor store. -/
theorem claim_C9_amended_witness :
    (SpeedSensor_SetCalibration { defaultCalibration with correctionFactor := 9/5 }
        defaultCalibration).2.calibrationValid = true ∧
    (SpeedSensor_SetCalibration { defaultCalibration with correctionFactor := 9/5 }
        defaultCalibration).2.correctionFactor =
      ({ defaultCalibration with correctionFactor := 9/5 } : SpeedSensorCalibration).correctionFactor ∧
    1/2 < (SpeedSensor_SetCalibration { defaultCalibration with correctionFactor := 9/5 }
        defaultCalibration).2.correctionFactor ∧
    (SpeedSensor_SetCalibration { defaultCalibration with correctionFactor := 9/5 }
        defaultCalibration).2.correctionFactor < 2 :=
  (claim_C9_amended { defaultCalibration with correctionFactor := 9/5 } defaultCalibration).1
    (by norm_num [SpeedSensor_SetCalibration, defaultCalibration])

/-! ## Claim C10 -/

theorem findDTC_lt_length (n : ℕ) (table : List DTCInfo) (i : ℕ)
    (h : DiagnosticService_FindDTC n table = some i) : i < table.length := by
  induction table generalizing i with
  | nil => simp [DiagnosticService_FindDTC] at h
  | cons e rest ih =>
    unfold DiagnosticService_FindDTC at h
    split_ifs at h with he
    · have h0 : (0 : ℕ) = i := by simpa using h
      simp only [List.length_cons]
      omega
    · rcases hrest : DiagnosticService_FindDTC n rest with _ | j
      · rw [hrest, Option.map_none'] at h
        exact Option.noConfusion h
      · rw [hrest] at h
        simp only [Option.map_some'] at h
        obtain rfl : j + 1 = i := by simpa using h
        have := ih j hrest
        simp only [List.length_cons]
        omega

theorem findDTC_getD_dtcNumber (n : ℕ) (table : List DTCInfo) (i : ℕ) (dd : DTCInfo)
    (h : DiagnosticService_FindDTC n table = some i) :
    (table.getD i dd).dtcNumber = n := by
  induction table generalizing i with
  | nil => simp [DiagnosticService_FindDTC] at h
  | cons e rest ih =>
    unfold DiagnosticService_FindDTC at h
    split_ifs at h with he
    · obtain rfl : (0 : ℕ) = i := by simpa using h
      simpa using he
    · rcases hrest : DiagnosticService_FindDTC n rest with _ | j
      · rw [hrest, Option.map_none'] at h
        exact Option.noConfusion h
      · rw [hrest] at h
        simp only [Option.map_some'] at h
        obtain rfl : j + 1 = i := by simpa using h
        simpa using ih j hrest

theorem listModify_getD_self (f : DTCInfo → DTCInfo) (i : ℕ) (table : List DTCInfo)
    (dd : DTCInfo) (h : i < table.length) :
    (listModify f i table).getD i dd = f (table.getD i dd) := by
  induction table generalizing i with
  | nil => simp at h
  | cons e rest ih =>
    cases i with
    | zero => rfl
    | succ j =>
      simp only [listModify, List.getD_cons_succ]
      exact ih j (by simpa using h)

theorem listModify_getD_ne (f : DTCInfo → DTCInfo) (i j : ℕ) (table : List DTCInfo)
    (dd : DTCInfo) (h : j ≠ i) :
    (listModify f i table).getD j dd = table.getD j dd := by
  induction table generalizing i j with
  | nil => cases i <;> rfl
  | cons e rest ih =>
    cases i with
    | zero =>
      cases j with
      | zero => exact absurd rfl h
      | succ k => rfl
    | succ i2 =>
      cases j with
      | zero => rfl
      | succ k =>
        simp only [listModify, List.getD_cons_succ]
        exact ih i2 k (by omega)

theorem findDTC_listModify (n : ℕ) (f : DTCInfo → DTCInfo) (j : ℕ)
    (table : List DTCInfo) (hf : ∀ e, (f e).dtcNumber = e.dtcNumber) :
    DiagnosticService_FindDTC n (listModify f j table) =
      DiagnosticService_FindDTC n table := by
  induction table generalizing j with
  | nil => cases j <;> rfl
  | cons e rest ih =>
    cases j with
    | zero =>
      simp only [listModify]
      unfold DiagnosticService_FindDTC
      rw [hf e]
    | succ j2 =>
      simp only [listModify]
      unfold DiagnosticService_FindDTC
      rw [ih j2]

theorem listModify_length (f : DTCInfo → DTCInfo) (i : ℕ) (table : List DTCInfo) :
    (listModify f i table).length = table.length := by
  induction table generalizing i with
  | nil => cases i <;> rfl
  | cons e rest ih =>
    cases i with
    | zero => rfl
    | succ j => simpa [listModify] using ih j

theorem clearDTCSlot_frame (e : DTCInfo) :
    (clearDTCSlot e).dtcNumber = e.dtcNumber ∧
    (clearDTCSlot e).occurrenceCount = e.occurrenceCount ∧
    (clearDTCSlot e).severity = e.severity ∧
    (clearDTCSlot e).firstFailureTimestamp = e.firstFailureTimestamp ∧
    (clearDTCSlot e).lastFailureTimestamp = e.lastFailureTimestamp := by
  unfold clearDTCSlot
  split_ifs <;> exact ⟨rfl, rfl, rfl, rfl, rfl⟩

theorem clearAllDTCs_getD (table : List DTCInfo) (j : ℕ) (dd : DTCInfo) :
    (DiagnosticService_ClearAllDTCs table).getD j dd =
      if j < table.length then clearDTCSlot (table.getD j dd) else dd := by
  induction table generalizing j with
  | nil => cases j <;> simp [DiagnosticService_ClearAllDTCs]
  | cons e rest ih =>
    cases j with
    | zero => simp [DiagnosticService_ClearAllDTCs]
    | succ k =>
      simp only [DiagnosticService_ClearAllDTCs, List.map_cons, List.getD_cons_succ,
        List.length_cons] at ih ⊢
      rw [ih k]
      by_cases hk : k < rest.length
      · rw [if_pos hk, if_pos (by omega)]
      · rw [if_neg hk, if_neg (by omega)]

/-- Claim C10: clearing a DTC touches only the matched entry's status byte
(reset to just testNotCompletedSinceLastClear) — its dtcNumber, occurrence
count, severity and first/last failure timestamps survive, and all other
slots are untouched; the clear-all loop has the same per-slot frame; and an
entry whose occurrence count had already reached the confirmation threshold
(3) regains the confirmedDTC bit on the very next active re-observation
after a clear. -/
theorem claim_C10 (table : List DTCInfo) (n : ℕ) (i : ℕ) (dd : DTCInfo)
    (hfind : DiagnosticService_FindDTC n table = some i) :
    ((DiagnosticService_ClearDTC n table).1 = true ∧
      ((DiagnosticService_ClearDTC n table).2.getD i dd).status = clearedDTCStatus ∧
      ((DiagnosticService_ClearDTC n table).2.getD i dd).dtcNumber =
        (table.getD i dd).dtcNumber ∧
      ((DiagnosticService_ClearDTC n table).2.getD i dd).occurrenceCount =
        (table.getD i dd).occurrenceCount ∧
      ((DiagnosticService_ClearDTC n table).2.getD i dd).severity =
        (table.getD i dd).severity ∧
      ((DiagnosticService_ClearDTC n table).2.getD i dd).firstFailureTimestamp =
        (table.getD i dd).firstFailureTimestamp ∧
      ((DiagnosticService_ClearDTC n table).2.getD i dd).lastFailureTimestamp =
        (table.getD i dd).lastFailureTimestamp ∧
      ∀ j, j ≠ i → (DiagnosticService_ClearDTC n table).2.getD j dd = table.getD j dd) ∧
    (∀ j,
      ((DiagnosticService_ClearAllDTCs table).getD j dd).dtcNumber =
        (table.getD j dd).dtcNumber ∧
      ((DiagnosticService_ClearAllDTCs table).getD j dd).occurrenceCount =
        (table.getD j dd).occurrenceCount ∧
      ((DiagnosticService_ClearAllDTCs table).getD j dd).severity =
        (table.getD j dd).severity ∧
      ((DiagnosticService_ClearAllDTCs table).getD j dd).firstFailureTimestamp =
        (table.getD j dd).firstFailureTimestamp ∧
      ((DiagnosticService_ClearAllDTCs table).getD j dd).lastFailureTimestamp =
        (table.getD j dd).lastFailureTimestamp) ∧
    (3 ≤ (table.getD i dd).occurrenceCount →
      (DiagnosticService_UpdateDTCStatus n true (DiagnosticService_ClearDTC n table).2).1 = true ∧
      ((DiagnosticService_UpdateDTCStatus n true
          (DiagnosticService_ClearDTC n table).2).2.getD i dd).status.confirmedDTC = true) := by
  have hlen := findDTC_lt_length n table i hfind
  have hclear : (DiagnosticService_ClearDTC n table).2 =
      listModify (fun e => { e with status := clearedDTCStatus }) i table := by
    unfold DiagnosticService_ClearDTC
    rw [hfind]
  have hclear1 : (DiagnosticService_ClearDTC n table).1 = true := by
    unfold DiagnosticService_ClearDTC
    rw [hfind]
  have hgetD : (DiagnosticService_ClearDTC n table).2.getD i dd =
      { table.getD i dd with status := clearedDTCStatus } := by
    rw [hclear, listModify_getD_self _ _ _ _ hlen]
  refine ⟨?_, ?_, ?_⟩
  · refine ⟨hclear1, ?_, ?_, ?_, ?_, ?_, ?_, ?_⟩ <;>
      first
        | (rw [hgetD])
        | (intro j hj; rw [hclear, listModify_getD_ne _ _ _ _ _ hj])
  · intro j
    rw [clearAllDTCs_getD]
    by_cases hj : j < table.length
    · rw [if_pos hj]
      exact clearDTCSlot_frame _
    · rw [if_neg hj, List.getD_eq_default _ _ (by omega)]
      exact ⟨rfl, rfl, rfl, rfl, rfl⟩
  · intro h3
    have hfind2 : DiagnosticService_FindDTC n (DiagnosticService_ClearDTC n table).2 = some i := by
      rw [hclear, findDTC_listModify n (fun e => { e with status := clearedDTCStatus }) i table (fun e => rfl)]
      exact hfind
    have hlen2 : i < (DiagnosticService_ClearDTC n table).2.length := by
      rw [hclear, listModify_length]
      exact hlen
    have hgetD2 : (DiagnosticService_ClearDTC n table).2.getD i dd =
        ⟨(table.getD i dd).dtcNumber, clearedDTCStatus, (table.getD i dd).severity,
          (table.getD i dd).functionalUnit, (table.getD i dd).affectedWheel,
          (table.getD i dd).occurrenceCount, (table.getD i dd).firstFailureTimestamp,
          (table.getD i dd).lastFailureTimestamp, (table.getD i dd).malfunctionType⟩ := by
      rw [hclear, listModify_getD_self _ _ _ _ hlen]
    unfold DiagnosticService_UpdateDTCStatus
    rw [hfind2]
    refine ⟨rfl, ?_⟩
    dsimp only
    rw [listModify_getD_self _ _ _ _ hlen2, hgetD2]
    rw [if_pos rfl]
    dsimp only
    rw [if_pos (by omega)]

/-- An empty DTC slot, used as the getD fallback in the C10 witness. -/
def emptyDTCInfo : DTCInfo :=
  { dtcNumber := 0, status := clearedDTCStatus, severity := 0, functionalUnit := 0
    affectedWheel := 0, occurrenceCount := 0, firstFailureTimestamp := 0
    lastFailureTimestamp := 0, malfunctionType := ABS_MalfunctionType.none }

/-- Witness for C10 at the concrete table: clearing DTC 0xC14100 (occurrence
count already 3) resets only its status, and the next active re-observation
immediately re-confirms it. -/
theorem claim_C10_witness :
    ((DiagnosticService_ClearDTC 0xC14100 c8Table).2.getD 0 emptyDTCInfo).status =
      clearedDTCStatus ∧
    ((DiagnosticService_ClearDTC 0xC14100 c8Table).2.getD 0 emptyDTCInfo).occurrenceCount =
      (c8Table.getD 0 emptyDTCInfo).occurrenceCount ∧
    ((DiagnosticService_UpdateDTCStatus 0xC14100 true
        (DiagnosticService_ClearDTC 0xC14100 c8Table).2).2.getD 0
      emptyDTCInfo).status.confirmedDTC = true := by
  have h := claim_C10 c8Table 0xC14100 0 emptyDTCInfo (by decide)
  exact ⟨h.1.2.1, h.1.2.2.2.1, (h.2.2 (by decide)).2⟩

end ABSSpec
